import Mathlib

/-!
Shallow embedding of the OpenPilot path-following library (paths.c): the
dispatcher path_progress and the three geometric solvers path_endpoint,
path_vector and path_circle, translated over exact real arithmetic, together
with theorems checking the specified behaviour of each solver.
-/

namespace Paths

open Real

/-- A 3-component coordinate vector (north, east, down axes). -/
@[ext]
structure Vec3 where
  n : ℝ
  e : ℝ
  d : ℝ

/-- Output record of the path library (struct path_status). -/
@[ext]
structure PathStatus where
  fractional_progress : ℝ
  error : ℝ
  correction_direction : Vec3
  path_direction : Vec3

/-- Two-argument arctangent: atan2f y x is the argument of the complex number
x + y*I, with range (-pi, pi]. -/
noncomputable def atan2 (y x : ℝ) : ℝ := Complex.arg ⟨x, y⟩

/-- Modelled from the spec: boundf comes from the repository's math helper
header (mathmisc.h), which is not part of the source tree here; per the spec it
clamps a value into the closed interval [min, max]. -/
noncomputable def boundf (val min max : ℝ) : ℝ :=
  if val < min then min else if val > max then max else val

/-- Modelled from the spec: the PATHDESIRED_MODE_* codes come from the
generated UAVObject header pathdesired.h, which is not part of the source tree
here; the spec lists the eight path modes. The concrete numeric codes are
immaterial to every claim below: only their distinctness is used. -/
def PATHDESIRED_MODE_FLYENDPOINT : ℕ := 0

def PATHDESIRED_MODE_FLYVECTOR : ℕ := 1

def PATHDESIRED_MODE_FLYCIRCLERIGHT : ℕ := 2

def PATHDESIRED_MODE_FLYCIRCLELEFT : ℕ := 3

def PATHDESIRED_MODE_DRIVEENDPOINT : ℕ := 4

def PATHDESIRED_MODE_DRIVEVECTOR : ℕ := 5

def PATHDESIRED_MODE_DRIVECIRCLERIGHT : ℕ := 6

def PATHDESIRED_MODE_DRIVECIRCLELEFT : ℕ := 7

/-- Endpoint solver (path_endpoint in paths.c). Progress towards a single
endpoint; deviation equals remaining distance; no correction vector. -/
noncomputable def path_endpoint (start_point end_point cur_point : Vec3) (mode3D : Bool) :
    PathStatus :=
  let path : Vec3 := ⟨end_point.n - start_point.n, end_point.e - start_point.e,
    if mode3D then end_point.d - start_point.d else 0⟩
  let diff : Vec3 := ⟨end_point.n - cur_point.n, end_point.e - cur_point.e,
    if mode3D then end_point.d - cur_point.d else 0⟩
  let dist_diff := Real.sqrt (diff.n * diff.n + diff.e * diff.e + diff.d * diff.d)
  let dist_path := Real.sqrt (path.n * path.n + path.e * path.e + path.d * path.d)
  if dist_diff < 1e-6 then
    { fractional_progress := 1
      error := 0
      correction_direction := ⟨0, 0, 0⟩
      path_direction := ⟨0, 0, 1⟩ }
  else
    { fractional_progress :=
        if dist_path + 1 > dist_diff then 1 - dist_diff / (1 + dist_path) else 0
      error := dist_diff
      correction_direction := ⟨0, 0, 0⟩
      path_direction := ⟨diff.n / dist_diff, diff.e / dist_diff, diff.d / dist_diff⟩ }

/-- Euclidean length of a 3-vector, written with the same products as the
source code. -/
noncomputable def dist3 (v : Vec3) : ℝ := Real.sqrt (v.n * v.n + v.e * v.e + v.d * v.d)

/-- Dot product of two 3-vectors. -/
noncomputable def dot3 (a b : Vec3) : ℝ := a.n * b.n + a.e * b.e + a.d * b.d

/-- Local value path of path_vector in paths.c: end minus start, vertical
zeroed unless the 3D flag is set. -/
noncomputable def vector_path (start_point end_point : Vec3) (mode3D : Bool) : Vec3 :=
  ⟨end_point.n - start_point.n, end_point.e - start_point.e,
    if mode3D then end_point.d - start_point.d else 0⟩

/-- Local value diff of path_vector in paths.c: current minus start, vertical
zeroed unless the 3D flag is set. -/
noncomputable def vector_diff (start_point cur_point : Vec3) (mode3D : Bool) : Vec3 :=
  ⟨cur_point.n - start_point.n, cur_point.e - start_point.e,
    if mode3D then cur_point.d - start_point.d else 0⟩

/-- fractional_progress as computed by path_vector in paths.c: the raw
projection dot/(dist_path*dist_path) when dist_path > 1e-6, else 1, then
clamped by boundf to [0,1]. -/
noncomputable def vector_fp (start_point end_point cur_point : Vec3) (mode3D : Bool) : ℝ :=
  boundf
    (if dist3 (vector_path start_point end_point mode3D) > 1e-6 then
      dot3 (vector_path start_point end_point mode3D) (vector_diff start_point cur_point mode3D) /
        (dist3 (vector_path start_point end_point mode3D) *
          dist3 (vector_path start_point end_point mode3D))
    else 1) 0 1

/-- Local value track_point of path_vector in paths.c. -/
noncomputable def vector_track (start_point end_point cur_point : Vec3) (mode3D : Bool) : Vec3 :=
  ⟨vector_fp start_point end_point cur_point mode3D * (vector_path start_point end_point mode3D).n +
      start_point.n,
    vector_fp start_point end_point cur_point mode3D * (vector_path start_point end_point mode3D).e +
      start_point.e,
    vector_fp start_point end_point cur_point mode3D * (vector_path start_point end_point mode3D).d +
      start_point.d⟩

/-- The unnormalized correction_direction of path_vector in paths.c:
track_point minus current. -/
noncomputable def vector_corr (start_point end_point cur_point : Vec3) (mode3D : Bool) : Vec3 :=
  ⟨(vector_track start_point end_point cur_point mode3D).n - cur_point.n,
    (vector_track start_point end_point cur_point mode3D).e - cur_point.e,
    (vector_track start_point end_point cur_point mode3D).d - cur_point.d⟩

/-- Vector solver (path_vector in paths.c). Progress along a straight segment,
tangent direction, and normalized correction towards the closest point of the
bounded segment. -/
noncomputable def path_vector (start_point end_point cur_point : Vec3) (mode3D : Bool) :
    PathStatus :=
  { fractional_progress := vector_fp start_point end_point cur_point mode3D
    error := dist3 (vector_corr start_point end_point cur_point mode3D)
    correction_direction :=
      if dist3 (vector_corr start_point end_point cur_point mode3D) > 1e-6 then
        ⟨(vector_corr start_point end_point cur_point mode3D).n /
            dist3 (vector_corr start_point end_point cur_point mode3D),
          (vector_corr start_point end_point cur_point mode3D).e /
            dist3 (vector_corr start_point end_point cur_point mode3D),
          (vector_corr start_point end_point cur_point mode3D).d /
            dist3 (vector_corr start_point end_point cur_point mode3D)⟩
      else ⟨0, 0, 1⟩
    path_direction :=
      if dist3 (vector_path start_point end_point mode3D) > 1e-6 then
        ⟨(vector_path start_point end_point mode3D).n /
            dist3 (vector_path start_point end_point mode3D),
          (vector_path start_point end_point mode3D).e /
            dist3 (vector_path start_point end_point mode3D),
          (vector_path start_point end_point mode3D).d /
            dist3 (vector_path start_point end_point mode3D)⟩
      else ⟨0, 0, 0⟩ }

/-- Circle solver (path_circle in paths.c). Angular progress around a circle
centred at end_point with radius given by the start point, tangential path
direction for the commanded winding, and radial correction. -/
noncomputable def path_circle (start_point end_point cur_point : Vec3) (clockwise : Bool) :
    PathStatus :=
  let radius_north := end_point.n - start_point.n
  let radius_east := end_point.e - start_point.e
  let diff_north := cur_point.n - end_point.n
  let diff_east := cur_point.e - end_point.e
  let radius := Real.sqrt (radius_north ^ 2 + radius_east ^ 2)
  let cradius := Real.sqrt (diff_north ^ 2 + diff_east ^ 2)
  if cradius < 1e-6 then
    { fractional_progress := 1
      error := radius
      correction_direction := ⟨0, 1, 0⟩
      path_direction := ⟨1, 0, 0⟩ }
  else
    let normal0 := if clockwise then -diff_east / cradius else diff_east / cradius
    let normal1 := if clockwise then diff_north / cradius else -diff_north / cradius
    let a_diff0 := atan2 diff_north diff_east
    let a_radius0 := atan2 radius_north radius_east
    let a_diff := if a_diff0 < 0 then a_diff0 + 2 * π else a_diff0
    let a_radius := if a_radius0 < 0 then a_radius0 + 2 * π else a_radius0
    let progress0 := (a_diff - a_radius + π) / (2 * π)
    let progress1 :=
      if progress0 < 0 then progress0 + 1
      else if progress0 ≥ 1 then progress0 - 1
      else progress0
    let progress := if clockwise then 1 - progress1 else progress1
    let signed_error := radius - cradius
    { fractional_progress := progress
      error := |signed_error|
      correction_direction := ⟨(if signed_error > 0 then 1 else -1) * diff_north / cradius,
        (if signed_error > 0 then 1 else -1) * diff_east / cradius, 0⟩
      path_direction := ⟨normal0, normal1, 0⟩ }

/-- Dispatcher (path_progress in paths.c): selects exactly one solver from the
mode code; DRIVEENDPOINT and every unrecognized code fall through to the
endpoint solver with the horizontal-only flag. -/
noncomputable def path_progress (start_point end_point cur_point : Vec3) (mode : ℕ) :
    PathStatus :=
  if mode = PATHDESIRED_MODE_FLYVECTOR then
    path_vector start_point end_point cur_point true
  else if mode = PATHDESIRED_MODE_DRIVEVECTOR then
    path_vector start_point end_point cur_point false
  else if mode = PATHDESIRED_MODE_FLYCIRCLERIGHT ∨ mode = PATHDESIRED_MODE_DRIVECIRCLERIGHT then
    path_circle start_point end_point cur_point true
  else if mode = PATHDESIRED_MODE_FLYCIRCLELEFT ∨ mode = PATHDESIRED_MODE_DRIVECIRCLELEFT then
    path_circle start_point end_point cur_point false
  else if mode = PATHDESIRED_MODE_FLYENDPOINT then
    path_endpoint start_point end_point cur_point true
  else
    path_endpoint start_point end_point cur_point false

/-- A vector of unit length, measured by the sum of squared components. -/
def IsUnit3 (v : Vec3) : Prop := v.n ^ 2 + v.e ^ 2 + v.d ^ 2 = 1

lemma sum_mul_self_nonneg (a b c : ℝ) : 0 ≤ a * a + b * b + c * c := by
  nlinarith [mul_self_nonneg a, mul_self_nonneg b, mul_self_nonneg c]

lemma dist3_nonneg (v : Vec3) : 0 ≤ dist3 v := Real.sqrt_nonneg _

lemma unit_div_dist3 {v : Vec3} (h : 0 < dist3 v) :
    IsUnit3 ⟨v.n / dist3 v, v.e / dist3 v, v.d / dist3 v⟩ := by
  have h2 : dist3 v ^ 2 = v.n * v.n + v.e * v.e + v.d * v.d :=
    Real.sq_sqrt (sum_mul_self_nonneg _ _ _)
  unfold IsUnit3
  dsimp only
  field_simp
  linarith [h2]

lemma one_sub_div_nonneg {x y : ℝ} (hy : 0 ≤ y) (h : y + 1 > x) :
    0 ≤ 1 - x / (1 + y) := by
  have hy1 : (0 : ℝ) < 1 + y := by linarith
  have := (div_le_one hy1).mpr (by linarith : x ≤ 1 + y)
  linarith

lemma path_endpoint_error_nonneg (start_point end_point cur_point : Vec3) (mode3D : Bool) :
    0 ≤ (path_endpoint start_point end_point cur_point mode3D).error := by
  simp only [path_endpoint]
  split_ifs <;> dsimp only <;> norm_num

lemma path_vector_error_nonneg (start_point end_point cur_point : Vec3) (mode3D : Bool) :
    0 ≤ (path_vector start_point end_point cur_point mode3D).error := by
  simp only [path_vector]
  exact dist3_nonneg _

lemma path_circle_error_nonneg (start_point end_point cur_point : Vec3) (clockwise : Bool) :
    0 ≤ (path_circle start_point end_point cur_point clockwise).error := by
  simp only [path_circle]
  split_ifs <;> dsimp only <;> first | exact Real.sqrt_nonneg _ | exact abs_nonneg _

/-- C9: after every call to path_progress, in every mode and for every input,
the error field of the resulting status is non-negative. -/
theorem path_progress_error_nonneg (start_point end_point cur_point : Vec3) (mode : ℕ) :
    0 ≤ (path_progress start_point end_point cur_point mode).error := by
  simp only [path_progress]
  split_ifs
  · exact path_vector_error_nonneg _ _ _ _
  · exact path_vector_error_nonneg _ _ _ _
  · exact path_circle_error_nonneg _ _ _ _
  · exact path_circle_error_nonneg _ _ _ _
  · exact path_endpoint_error_nonneg _ _ _ _
  · exact path_endpoint_error_nonneg _ _ _ _

/-- C4: the endpoint solver reports, with path = end - start and
diff = end - current (vertical components zeroed when the 3D flag is off):
if the diff length is below 1e-6 then progress 1, error 0, path direction
(0,0,1) and zero correction; otherwise progress 1 - d_diff/(1 + d_path)
when d_path + 1 > d_diff and 0 otherwise, error d_diff, path direction
diff normalized, zero correction. Progress is never negative. -/
theorem path_endpoint_postcondition (start_point end_point cur_point : Vec3) (mode3D : Bool) :
    path_endpoint start_point end_point cur_point mode3D =
      (if dist3 ⟨end_point.n - cur_point.n, end_point.e - cur_point.e,
          if mode3D then end_point.d - cur_point.d else 0⟩ < 1e-6 then
        ⟨1, 0, ⟨0, 0, 0⟩, ⟨0, 0, 1⟩⟩
      else
        ⟨if dist3 ⟨end_point.n - start_point.n, end_point.e - start_point.e,
              if mode3D then end_point.d - start_point.d else 0⟩ + 1 >
            dist3 ⟨end_point.n - cur_point.n, end_point.e - cur_point.e,
              if mode3D then end_point.d - cur_point.d else 0⟩ then
            1 - dist3 ⟨end_point.n - cur_point.n, end_point.e - cur_point.e,
                if mode3D then end_point.d - cur_point.d else 0⟩ /
              (1 + dist3 ⟨end_point.n - start_point.n, end_point.e - start_point.e,
                if mode3D then end_point.d - start_point.d else 0⟩)
          else 0,
          dist3 ⟨end_point.n - cur_point.n, end_point.e - cur_point.e,
            if mode3D then end_point.d - cur_point.d else 0⟩,
          ⟨0, 0, 0⟩,
          ⟨(end_point.n - cur_point.n) /
              dist3 ⟨end_point.n - cur_point.n, end_point.e - cur_point.e,
                if mode3D then end_point.d - cur_point.d else 0⟩,
            (end_point.e - cur_point.e) /
              dist3 ⟨end_point.n - cur_point.n, end_point.e - cur_point.e,
                if mode3D then end_point.d - cur_point.d else 0⟩,
            (if mode3D then end_point.d - cur_point.d else 0) /
              dist3 ⟨end_point.n - cur_point.n, end_point.e - cur_point.e,
                if mode3D then end_point.d - cur_point.d else 0⟩⟩⟩) ∧
    0 ≤ (path_endpoint start_point end_point cur_point mode3D).fractional_progress := by
  constructor
  · simp only [path_endpoint, dist3]
  · simp only [path_endpoint]
    split_ifs <;> dsimp only <;>
      first
        | (rename_i hgt
           exact one_sub_div_nonneg (Real.sqrt_nonneg _) hgt)
        | norm_num

/-- C5: every mode value that is not one of the recognized path-mode codes is
routed to the endpoint solver with the horizontal-only flag; the dispatcher is
total (no error path) and runs exactly that one solver. -/
theorem path_progress_unknown_mode (start_point end_point cur_point : Vec3) (mode : ℕ)
    (h1 : mode ≠ PATHDESIRED_MODE_FLYENDPOINT) (h2 : mode ≠ PATHDESIRED_MODE_FLYVECTOR)
    (h3 : mode ≠ PATHDESIRED_MODE_FLYCIRCLERIGHT) (h4 : mode ≠ PATHDESIRED_MODE_FLYCIRCLELEFT)
    (h5 : mode ≠ PATHDESIRED_MODE_DRIVEENDPOINT) (h6 : mode ≠ PATHDESIRED_MODE_DRIVEVECTOR)
    (h7 : mode ≠ PATHDESIRED_MODE_DRIVECIRCLERIGHT)
    (h8 : mode ≠ PATHDESIRED_MODE_DRIVECIRCLELEFT) :
    path_progress start_point end_point cur_point mode =
      path_endpoint start_point end_point cur_point false := by
  simp [path_progress, h1, h2, h3, h4, h5, h6, h7, h8]

/-- Witness for C5 at the concrete unrecognized mode code 42. -/
theorem path_progress_unknown_mode_witness :
    path_progress ⟨0, 0, 0⟩ ⟨1, 2, 3⟩ ⟨4, 5, 6⟩ 42 =
      path_endpoint ⟨0, 0, 0⟩ ⟨1, 2, 3⟩ ⟨4, 5, 6⟩ false :=
  path_progress_unknown_mode ⟨0, 0, 0⟩ ⟨1, 2, 3⟩ ⟨4, 5, 6⟩ 42 (by decide) (by decide)
    (by decide) (by decide) (by decide) (by decide) (by decide) (by decide)

/-- C7: when the current point is within 1e-6 of the circle centre, the circle
solver reports progress 1, error equal to the commanded radius, and the fixed
fallback directions (0,1,0) for correction and (1,0,0) for path. -/
theorem path_circle_degenerate (start_point end_point cur_point : Vec3) (clockwise : Bool)
    (h : Real.sqrt ((cur_point.n - end_point.n) ^ 2 + (cur_point.e - end_point.e) ^ 2) < 1e-6) :
    path_circle start_point end_point cur_point clockwise =
      ⟨1, Real.sqrt ((end_point.n - start_point.n) ^ 2 + (end_point.e - start_point.e) ^ 2),
        ⟨0, 1, 0⟩, ⟨1, 0, 0⟩⟩ := by
  simp only [path_circle]
  rw [if_pos h]

/-- Witness for C7: vehicle exactly at the centre (3,4,0) of a circle of
radius 5 commanded from the origin. -/
theorem path_circle_degenerate_witness :
    path_circle ⟨0, 0, 0⟩ ⟨3, 4, 0⟩ ⟨3, 4, 0⟩ true = ⟨1, 5, ⟨0, 1, 0⟩, ⟨1, 0, 0⟩⟩ := by
  have h : Real.sqrt ((((⟨3, 4, 0⟩ : Vec3).n - (⟨3, 4, 0⟩ : Vec3).n) : ℝ) ^ 2 +
      (((⟨3, 4, 0⟩ : Vec3).e - (⟨3, 4, 0⟩ : Vec3).e) : ℝ) ^ 2) < 1e-6 := by
    norm_num
  rw [path_circle_degenerate ⟨0, 0, 0⟩ ⟨3, 4, 0⟩ ⟨3, 4, 0⟩ true h]
  have h5 : Real.sqrt ((((⟨3, 4, 0⟩ : Vec3).n - (⟨0, 0, 0⟩ : Vec3).n) : ℝ) ^ 2 +
      (((⟨3, 4, 0⟩ : Vec3).e - (⟨0, 0, 0⟩ : Vec3).e) : ℝ) ^ 2) = 5 := by
    rw [show (((⟨3, 4, 0⟩ : Vec3).n - (⟨0, 0, 0⟩ : Vec3).n) : ℝ) ^ 2 +
        (((⟨3, 4, 0⟩ : Vec3).e - (⟨0, 0, 0⟩ : Vec3).e) : ℝ) ^ 2 = 5 ^ 2 by norm_num]
    exact Real.sqrt_sq (by norm_num)
  rw [h5]

lemma boundf_eq_clamp (val : ℝ) : boundf val 0 1 = max 0 (min val 1) := by
  unfold boundf
  simp only [max_def, min_def]
  split_ifs <;> linarith

/-- Written from the spec text for the vector solver (C1), fractional progress:
the raw projection dot/d_path^2 when d_path > 1e-6 (else raw progress 1),
clamped to the interval [0,1]. -/
noncomputable def vector_fp_spec (start_point end_point cur_point : Vec3) (mode3D : Bool) : ℝ :=
  max 0 (min
    (if dist3 (vector_path start_point end_point mode3D) > 1e-6 then
      dot3 (vector_path start_point end_point mode3D) (vector_diff start_point cur_point mode3D) /
        dist3 (vector_path start_point end_point mode3D) ^ 2
    else 1) 1)

/-- Written from the spec text for the vector solver (C1): the closest point of
the bounded segment, track_point = start + fractional_progress * path. -/
noncomputable def vector_track_spec (start_point end_point cur_point : Vec3) (mode3D : Bool) :
    Vec3 :=
  ⟨start_point.n +
      vector_fp_spec start_point end_point cur_point mode3D *
        (vector_path start_point end_point mode3D).n,
    start_point.e +
      vector_fp_spec start_point end_point cur_point mode3D *
        (vector_path start_point end_point mode3D).e,
    start_point.d +
      vector_fp_spec start_point end_point cur_point mode3D *
        (vector_path start_point end_point mode3D).d⟩

/-- Written from the spec text for the vector solver (C1):
correction_direction before normalization, track_point - current. -/
noncomputable def vector_corr_spec (start_point end_point cur_point : Vec3) (mode3D : Bool) :
    Vec3 :=
  ⟨(vector_track_spec start_point end_point cur_point mode3D).n - cur_point.n,
    (vector_track_spec start_point end_point cur_point mode3D).e - cur_point.e,
    (vector_track_spec start_point end_point cur_point mode3D).d - cur_point.d⟩

/-- Written from the spec text for the vector solver (C1): the full
postcondition of the claim, assembled from the pieces above; path_direction is
path/d_path when d_path > 1e-6 (else the zero vector), error is the length of
the unnormalized correction, and the correction is normalized exactly when
error > 1e-6 (else the fixed fallback (0,0,1) with error left as computed). -/
noncomputable def path_vector_spec (start_point end_point cur_point : Vec3) (mode3D : Bool) :
    PathStatus :=
  { fractional_progress := vector_fp_spec start_point end_point cur_point mode3D
    error := dist3 (vector_corr_spec start_point end_point cur_point mode3D)
    correction_direction :=
      if dist3 (vector_corr_spec start_point end_point cur_point mode3D) > 1e-6 then
        ⟨(vector_corr_spec start_point end_point cur_point mode3D).n /
            dist3 (vector_corr_spec start_point end_point cur_point mode3D),
          (vector_corr_spec start_point end_point cur_point mode3D).e /
            dist3 (vector_corr_spec start_point end_point cur_point mode3D),
          (vector_corr_spec start_point end_point cur_point mode3D).d /
            dist3 (vector_corr_spec start_point end_point cur_point mode3D)⟩
      else ⟨0, 0, 1⟩
    path_direction :=
      if dist3 (vector_path start_point end_point mode3D) > 1e-6 then
        ⟨(vector_path start_point end_point mode3D).n /
            dist3 (vector_path start_point end_point mode3D),
          (vector_path start_point end_point mode3D).e /
            dist3 (vector_path start_point end_point mode3D),
          (vector_path start_point end_point mode3D).d /
            dist3 (vector_path start_point end_point mode3D)⟩
      else ⟨0, 0, 0⟩ }

lemma vector_fp_eq (start_point end_point cur_point : Vec3) (mode3D : Bool) :
    vector_fp start_point end_point cur_point mode3D =
      vector_fp_spec start_point end_point cur_point mode3D := by
  unfold vector_fp vector_fp_spec
  rw [boundf_eq_clamp, pow_two]

lemma vector_track_eq (start_point end_point cur_point : Vec3) (mode3D : Bool) :
    vector_track start_point end_point cur_point mode3D =
      vector_track_spec start_point end_point cur_point mode3D := by
  unfold vector_track vector_track_spec
  rw [vector_fp_eq]
  apply Vec3.ext <;> dsimp only <;> ring

lemma vector_corr_eq (start_point end_point cur_point : Vec3) (mode3D : Bool) :
    vector_corr start_point end_point cur_point mode3D =
      vector_corr_spec start_point end_point cur_point mode3D := by
  unfold vector_corr vector_corr_spec
  rw [vector_track_eq]

/-- C1: the source vector solver satisfies the specified postcondition -- it
computes exactly the values described by the spec (path_vector_spec). -/
theorem path_vector_meets_spec (start_point end_point cur_point : Vec3) (mode3D : Bool) :
    path_vector start_point end_point cur_point mode3D =
      path_vector_spec start_point end_point cur_point mode3D := by
  simp only [path_vector, path_vector_spec, vector_fp_eq, vector_corr_eq]

lemma isUnit3_div3 {a b c : ℝ} (h0 : 0 < Real.sqrt (a * a + b * b + c * c)) :
    IsUnit3 ⟨a / Real.sqrt (a * a + b * b + c * c), b / Real.sqrt (a * a + b * b + c * c),
      c / Real.sqrt (a * a + b * b + c * c)⟩ := by
  have hpos : 0 < a * a + b * b + c * c := Real.sqrt_pos.mp h0
  have h2 : Real.sqrt (a * a + b * b + c * c) ^ 2 = a * a + b * b + c * c :=
    Real.sq_sqrt (le_of_lt hpos)
  unfold IsUnit3
  dsimp only
  calc (a / Real.sqrt (a * a + b * b + c * c)) ^ 2 +
        (b / Real.sqrt (a * a + b * b + c * c)) ^ 2 +
        (c / Real.sqrt (a * a + b * b + c * c)) ^ 2 =
      (a * a + b * b + c * c) / Real.sqrt (a * a + b * b + c * c) ^ 2 := by ring
    _ = 1 := by rw [h2]; exact div_self (ne_of_gt hpos)

lemma isUnit3_div2 {a b : ℝ} (h0 : 0 < Real.sqrt (a ^ 2 + b ^ 2)) (p q : ℝ)
    (hpq : p ^ 2 + q ^ 2 = a ^ 2 + b ^ 2) :
    IsUnit3 ⟨p / Real.sqrt (a ^ 2 + b ^ 2), q / Real.sqrt (a ^ 2 + b ^ 2), 0⟩ := by
  have hpos : 0 < a ^ 2 + b ^ 2 := Real.sqrt_pos.mp h0
  have h2 : Real.sqrt (a ^ 2 + b ^ 2) ^ 2 = a ^ 2 + b ^ 2 := Real.sq_sqrt (le_of_lt hpos)
  unfold IsUnit3
  dsimp only
  calc (p / Real.sqrt (a ^ 2 + b ^ 2)) ^ 2 + (q / Real.sqrt (a ^ 2 + b ^ 2)) ^ 2 + (0 : ℝ) ^ 2 =
      (p ^ 2 + q ^ 2) / Real.sqrt (a ^ 2 + b ^ 2) ^ 2 := by ring
    _ = 1 := by rw [h2, hpq]; exact div_self (ne_of_gt hpos)

lemma path_endpoint_pd (start_point end_point cur_point : Vec3) (mode3D : Bool) :
    IsUnit3 (path_endpoint start_point end_point cur_point mode3D).path_direction ∨
      (path_endpoint start_point end_point cur_point mode3D).path_direction = ⟨0, 0, 1⟩ := by
  simp only [path_endpoint, apply_ite PathStatus.path_direction]
  split_ifs with hm h h2
  · exact Or.inr rfl
  · exact Or.inl (isUnit3_div3 (lt_of_lt_of_le (by norm_num) (not_lt.mp h)))
  · exact Or.inr rfl
  · exact Or.inl (isUnit3_div3 (lt_of_lt_of_le (by norm_num) (not_lt.mp h2)))

lemma path_endpoint_cd (start_point end_point cur_point : Vec3) (mode3D : Bool) :
    (path_endpoint start_point end_point cur_point mode3D).correction_direction = ⟨0, 0, 0⟩ := by
  simp only [path_endpoint, apply_ite PathStatus.correction_direction]
  split_ifs <;> rfl

lemma path_vector_pd (start_point end_point cur_point : Vec3) (mode3D : Bool) :
    IsUnit3 (path_vector start_point end_point cur_point mode3D).path_direction ∨
      (path_vector start_point end_point cur_point mode3D).path_direction = ⟨0, 0, 0⟩ := by
  simp only [path_vector]
  split_ifs with h
  · left
    have h0 : 0 < dist3 (vector_path start_point end_point mode3D) :=
      lt_trans (by norm_num) h
    exact isUnit3_div3 (a := (vector_path start_point end_point mode3D).n)
      (b := (vector_path start_point end_point mode3D).e)
      (c := (vector_path start_point end_point mode3D).d) h0
  · exact Or.inr rfl

lemma path_vector_cd (start_point end_point cur_point : Vec3) (mode3D : Bool) :
    IsUnit3 (path_vector start_point end_point cur_point mode3D).correction_direction ∨
      (path_vector start_point end_point cur_point mode3D).correction_direction = ⟨0, 0, 1⟩ := by
  simp only [path_vector]
  split_ifs with h
  · left
    have h0 : 0 < dist3 (vector_corr start_point end_point cur_point mode3D) :=
      lt_trans (by norm_num) h
    exact isUnit3_div3 (a := (vector_corr start_point end_point cur_point mode3D).n)
      (b := (vector_corr start_point end_point cur_point mode3D).e)
      (c := (vector_corr start_point end_point cur_point mode3D).d) h0
  · exact Or.inr rfl

lemma path_circle_pd (start_point end_point cur_point : Vec3) (clockwise : Bool) :
    IsUnit3 (path_circle start_point end_point cur_point clockwise).path_direction ∨
      (path_circle start_point end_point cur_point clockwise).path_direction = ⟨1, 0, 0⟩ := by
  simp only [path_circle, apply_ite PathStatus.path_direction]
  split_ifs with h hcw
  · exact Or.inr rfl
  · exact Or.inl (isUnit3_div2 (lt_of_lt_of_le (by norm_num) (not_lt.mp h)) _ _ (by ring))
  · exact Or.inl (isUnit3_div2 (lt_of_lt_of_le (by norm_num) (not_lt.mp h)) _ _ (by ring))

lemma path_circle_cd (start_point end_point cur_point : Vec3) (clockwise : Bool) :
    IsUnit3 (path_circle start_point end_point cur_point clockwise).correction_direction ∨
      (path_circle start_point end_point cur_point clockwise).correction_direction =
        ⟨0, 1, 0⟩ := by
  simp only [path_circle, apply_ite PathStatus.correction_direction]
  split_ifs with h hsgn
  · exact Or.inr rfl
  · exact Or.inl (isUnit3_div2 (lt_of_lt_of_le (by norm_num) (not_lt.mp h)) _ _ (by ring))
  · exact Or.inl (isUnit3_div2 (lt_of_lt_of_le (by norm_num) (not_lt.mp h)) _ _ (by ring))

/-- C8: in every mode and for every input, both direction outputs of
path_progress are unit vectors except for the documented degenerate fallbacks:
the zero vector or the fixed vectors (0,0,1), (0,1,0) and (1,0,0). -/
theorem path_progress_directions_unit (start_point end_point cur_point : Vec3) (mode : ℕ) :
    (IsUnit3 (path_progress start_point end_point cur_point mode).path_direction ∨
      (path_progress start_point end_point cur_point mode).path_direction = ⟨0, 0, 0⟩ ∨
      (path_progress start_point end_point cur_point mode).path_direction = ⟨0, 0, 1⟩ ∨
      (path_progress start_point end_point cur_point mode).path_direction = ⟨1, 0, 0⟩) ∧
    (IsUnit3 (path_progress start_point end_point cur_point mode).correction_direction ∨
      (path_progress start_point end_point cur_point mode).correction_direction = ⟨0, 0, 0⟩ ∨
      (path_progress start_point end_point cur_point mode).correction_direction = ⟨0, 0, 1⟩ ∨
      (path_progress start_point end_point cur_point mode).correction_direction = ⟨0, 1, 0⟩) := by
  simp only [path_progress]
  split_ifs
  · exact ⟨by rcases path_vector_pd start_point end_point cur_point true with h | h <;> tauto,
      by rcases path_vector_cd start_point end_point cur_point true with h | h <;> tauto⟩
  · exact ⟨by rcases path_vector_pd start_point end_point cur_point false with h | h <;> tauto,
      by rcases path_vector_cd start_point end_point cur_point false with h | h <;> tauto⟩
  · exact ⟨by rcases path_circle_pd start_point end_point cur_point true with h | h <;> tauto,
      by rcases path_circle_cd start_point end_point cur_point true with h | h <;> tauto⟩
  · exact ⟨by rcases path_circle_pd start_point end_point cur_point false with h | h <;> tauto,
      by rcases path_circle_cd start_point end_point cur_point false with h | h <;> tauto⟩
  · exact ⟨by rcases path_endpoint_pd start_point end_point cur_point true with h | h <;> tauto,
      by rw [path_endpoint_cd]; tauto⟩
  · exact ⟨by rcases path_endpoint_pd start_point end_point cur_point false with h | h <;> tauto,
      by rw [path_endpoint_cd]; tauto⟩

/-- C3: for a call to the circle solver with current radial distance at least
1e-6, the final error is the absolute difference of the commanded radius
(horizontal length of centre minus start) and the current radius (horizontal
length of current minus centre); the correction direction is the outward
horizontal radial unit vector when the vehicle is too close to the centre and
the inward one when it is too far, with zero vertical component; on the circle
the error is zero. -/
theorem path_circle_radial_error (start_point end_point cur_point : Vec3) (clockwise : Bool)
    (h : ¬ Real.sqrt ((cur_point.n - end_point.n) ^ 2 + (cur_point.e - end_point.e) ^ 2) <
      1e-6) :
    (path_circle start_point end_point cur_point clockwise).error =
      |Real.sqrt ((end_point.n - start_point.n) ^ 2 + (end_point.e - start_point.e) ^ 2) -
        Real.sqrt ((cur_point.n - end_point.n) ^ 2 + (cur_point.e - end_point.e) ^ 2)| ∧
    (Real.sqrt ((cur_point.n - end_point.n) ^ 2 + (cur_point.e - end_point.e) ^ 2) <
        Real.sqrt ((end_point.n - start_point.n) ^ 2 + (end_point.e - start_point.e) ^ 2) →
      (path_circle start_point end_point cur_point clockwise).correction_direction =
        ⟨(cur_point.n - end_point.n) /
            Real.sqrt ((cur_point.n - end_point.n) ^ 2 + (cur_point.e - end_point.e) ^ 2),
          (cur_point.e - end_point.e) /
            Real.sqrt ((cur_point.n - end_point.n) ^ 2 + (cur_point.e - end_point.e) ^ 2),
          0⟩) ∧
    (Real.sqrt ((end_point.n - start_point.n) ^ 2 + (end_point.e - start_point.e) ^ 2) <
        Real.sqrt ((cur_point.n - end_point.n) ^ 2 + (cur_point.e - end_point.e) ^ 2) →
      (path_circle start_point end_point cur_point clockwise).correction_direction =
        ⟨-(cur_point.n - end_point.n) /
            Real.sqrt ((cur_point.n - end_point.n) ^ 2 + (cur_point.e - end_point.e) ^ 2),
          -(cur_point.e - end_point.e) /
            Real.sqrt ((cur_point.n - end_point.n) ^ 2 + (cur_point.e - end_point.e) ^ 2),
          0⟩) ∧
    (Real.sqrt ((cur_point.n - end_point.n) ^ 2 + (cur_point.e - end_point.e) ^ 2) =
        Real.sqrt ((end_point.n - start_point.n) ^ 2 + (end_point.e - start_point.e) ^ 2) →
      (path_circle start_point end_point cur_point clockwise).error = 0) := by
  simp only [path_circle]
  rw [if_neg h]
  refine ⟨rfl, ?_, ?_, ?_⟩
  · intro hlt
    dsimp only
    rw [if_pos (sub_pos.mpr hlt)]
    apply Vec3.ext <;> dsimp only <;> ring
  · intro hlt
    dsimp only
    rw [if_neg (not_lt.mpr (sub_nonpos.mpr (le_of_lt hlt)))]
    apply Vec3.ext <;> dsimp only <;> ring
  · intro heq
    dsimp only
    rw [heq, sub_self, abs_zero]

/-- Witness for C3: centre (10,0), start at the origin (radius 10), current at
(16,0) (current radius 6, too close): the reported error is 4. -/
theorem path_circle_radial_error_witness :
    (path_circle ⟨0, 0, 0⟩ ⟨10, 0, 0⟩ ⟨16, 0, 0⟩ false).error = 4 := by
  have h6 : Real.sqrt ((((16 : ℝ)) - 10) ^ 2 + (((0 : ℝ)) - 0) ^ 2) = 6 := by
    rw [show (((16 : ℝ)) - 10) ^ 2 + (((0 : ℝ)) - 0) ^ 2 = 6 ^ 2 by norm_num]
    exact Real.sqrt_sq (by norm_num)
  have h : ¬ Real.sqrt ((((⟨16, 0, 0⟩ : Vec3).n - (⟨10, 0, 0⟩ : Vec3).n) : ℝ) ^ 2 +
      (((⟨16, 0, 0⟩ : Vec3).e - (⟨10, 0, 0⟩ : Vec3).e) : ℝ) ^ 2) < 1e-6 := by
    show ¬ Real.sqrt ((((16 : ℝ)) - 10) ^ 2 + (((0 : ℝ)) - 0) ^ 2) < 1e-6
    rw [h6]
    norm_num
  have hthm := path_circle_radial_error ⟨0, 0, 0⟩ ⟨10, 0, 0⟩ ⟨16, 0, 0⟩ false h
  rw [hthm.1]
  show |Real.sqrt ((((10 : ℝ)) - 0) ^ 2 + (((0 : ℝ)) - 0) ^ 2) -
    Real.sqrt ((((16 : ℝ)) - 10) ^ 2 + (((0 : ℝ)) - 0) ^ 2)| = 4
  rw [h6, show (((10 : ℝ)) - 0) ^ 2 + (((0 : ℝ)) - 0) ^ 2 = 10 ^ 2 by norm_num,
    Real.sqrt_sq (by norm_num : (0 : ℝ) ≤ 10)]
  norm_num

lemma atan2_gt_neg_pi (y x : ℝ) : -π < atan2 y x := Complex.neg_pi_lt_arg _

lemma atan2_le_pi (y x : ℝ) : atan2 y x ≤ π := Complex.arg_le_pi _

lemma atan2_pos_y (y : ℝ) (hy : 0 < y) : atan2 y 0 = π / 2 := by
  unfold atan2
  exact Complex.arg_eq_pi_div_two_iff.mpr ⟨rfl, hy⟩

lemma atan2_neg_y (y : ℝ) (hy : y < 0) : atan2 y 0 = -(π / 2) := by
  unfold atan2
  exact Complex.arg_eq_neg_pi_div_two_iff.mpr ⟨rfl, hy⟩

/-- Written from the spec text for the circle solver (C2): a bearing
normalized into the interval from 0 to 2 pi. -/
noncomputable def norm2pi (a : ℝ) : ℝ := if a < 0 then a + 2 * π else a

/-- Written from the spec text for the circle solver (C2): with a_diff the
bearing of current minus centre and a_radius the bearing of centre minus
start, both normalized into the 0-to-2-pi range, the progress is
(a_diff - a_radius + pi)/(2 pi), wrapped into the unit interval by adding or
subtracting 1, and mirrored as 1 - progress for clockwise winding. -/
noncomputable def circle_progress_spec (start_point end_point cur_point : Vec3)
    (clockwise : Bool) : ℝ :=
  let a_diff := norm2pi (atan2 (cur_point.n - end_point.n) (cur_point.e - end_point.e))
  let a_radius := norm2pi (atan2 (end_point.n - start_point.n) (end_point.e - start_point.e))
  let p := (a_diff - a_radius + π) / (2 * π)
  let wrapped := if p < 0 then p + 1 else if p ≥ 1 then p - 1 else p
  if clockwise then 1 - wrapped else wrapped

/-- C2: for every call to the circle solver with current radial distance at
least 1e-6, the fractional progress equals the specified angular formula
(circle_progress_spec); in the concrete on-circle counter-clockwise scenario
with start at the origin, centre (10,0,0), and current (20,0,0) at radius 10
directly opposite the reference radius, the error is 0 and the fractional
progress is one half. -/
theorem path_circle_progress_meets_spec (start_point end_point cur_point : Vec3)
    (clockwise : Bool)
    (h : ¬ Real.sqrt ((cur_point.n - end_point.n) ^ 2 + (cur_point.e - end_point.e) ^ 2) <
      1e-6) :
    (path_circle start_point end_point cur_point clockwise).fractional_progress =
      circle_progress_spec start_point end_point cur_point clockwise ∧
    (path_circle ⟨0, 0, 0⟩ ⟨10, 0, 0⟩ ⟨20, 0, 0⟩ false).error = 0 ∧
    (path_circle ⟨0, 0, 0⟩ ⟨10, 0, 0⟩ ⟨20, 0, 0⟩ false).fractional_progress = 1 / 2 := by
  have h100 : Real.sqrt (100 : ℝ) = 10 := by
    rw [show (100 : ℝ) = 10 ^ 2 by norm_num]
    exact Real.sqrt_sq (by norm_num)
  have hhalf : π / (2 * π) = 1 / 2 := by
    rw [div_eq_iff (mul_ne_zero two_ne_zero Real.pi_ne_zero)]
    ring
  refine ⟨?_, ?_, ?_⟩
  · simp only [path_circle, circle_progress_spec, norm2pi]
    rw [if_neg h]
  · simp only [path_circle]
    norm_num [h100]
  · simp only [path_circle]
    norm_num [h100, hhalf]

/-- Witness for C2: the hypothesis discharged at the concrete scenario-4
input, giving error 0 and fractional progress one half. -/
theorem path_circle_progress_meets_spec_witness :
    (path_circle ⟨0, 0, 0⟩ ⟨10, 0, 0⟩ ⟨20, 0, 0⟩ false).error = 0 ∧
    (path_circle ⟨0, 0, 0⟩ ⟨10, 0, 0⟩ ⟨20, 0, 0⟩ false).fractional_progress = 1 / 2 := by
  have h : ¬ Real.sqrt ((((⟨20, 0, 0⟩ : Vec3).n - (⟨10, 0, 0⟩ : Vec3).n) : ℝ) ^ 2 +
      (((⟨20, 0, 0⟩ : Vec3).e - (⟨10, 0, 0⟩ : Vec3).e) : ℝ) ^ 2) < 1e-6 := by
    show ¬ Real.sqrt ((((20 : ℝ)) - 10) ^ 2 + (((0 : ℝ)) - 0) ^ 2) < 1e-6
    rw [show (((20 : ℝ)) - 10) ^ 2 + (((0 : ℝ)) - 0) ^ 2 = 10 ^ 2 by norm_num,
      Real.sqrt_sq (by norm_num : (0 : ℝ) ≤ 10)]
    norm_num
  exact (path_circle_progress_meets_spec ⟨0, 0, 0⟩ ⟨10, 0, 0⟩ ⟨20, 0, 0⟩ false h).2

lemma wrapped_progress_bounds (a b : ℝ) (ha1 : -π < a) (ha2 : a ≤ π) (hb1 : -π < b)
    (hb2 : b ≤ π) :
    0 ≤ (if ((if a < 0 then a + 2 * π else a) - (if b < 0 then b + 2 * π else b) + π) /
          (2 * π) < 0 then
        ((if a < 0 then a + 2 * π else a) - (if b < 0 then b + 2 * π else b) + π) / (2 * π) + 1
      else if ((if a < 0 then a + 2 * π else a) - (if b < 0 then b + 2 * π else b) + π) /
          (2 * π) ≥ 1 then
        ((if a < 0 then a + 2 * π else a) - (if b < 0 then b + 2 * π else b) + π) / (2 * π) - 1
      else ((if a < 0 then a + 2 * π else a) - (if b < 0 then b + 2 * π else b) + π) /
        (2 * π)) ∧
    (if ((if a < 0 then a + 2 * π else a) - (if b < 0 then b + 2 * π else b) + π) /
          (2 * π) < 0 then
        ((if a < 0 then a + 2 * π else a) - (if b < 0 then b + 2 * π else b) + π) / (2 * π) + 1
      else if ((if a < 0 then a + 2 * π else a) - (if b < 0 then b + 2 * π else b) + π) /
          (2 * π) ≥ 1 then
        ((if a < 0 then a + 2 * π else a) - (if b < 0 then b + 2 * π else b) + π) / (2 * π) - 1
      else ((if a < 0 then a + 2 * π else a) - (if b < 0 then b + 2 * π else b) + π) /
        (2 * π)) < 1 := by
  have hpi : 0 < π := Real.pi_pos
  have h2pi : (0 : ℝ) < 2 * π := by linarith
  set A := if a < 0 then a + 2 * π else a with hA
  set B := if b < 0 then b + 2 * π else b with hB
  have hA1 : 0 ≤ A := by rw [hA]; split_ifs <;> linarith
  have hA2 : A < 2 * π := by rw [hA]; split_ifs <;> linarith
  have hB1 : 0 ≤ B := by rw [hB]; split_ifs <;> linarith
  have hB2 : B < 2 * π := by rw [hB]; split_ifs <;> linarith
  have hp1 : -(1 / 2 : ℝ) < (A - B + π) / (2 * π) := by
    rw [lt_div_iff₀ h2pi]
    linarith
  have hp2 : (A - B + π) / (2 * π) < 3 / 2 := by
    rw [div_lt_iff₀ h2pi]
    linarith
  constructor <;> split_ifs <;> linarith

/-- C10: with current radial distance at least 1e-6, the circle solver's
fractional progress lies in the half-open interval [0,1) for counter-clockwise
winding and in (0,1] for clockwise winding; the clockwise mirror is applied
after the wrap, so clockwise progress reaches exactly 1 (witnessed at the
start point of the arc) and is never exactly 0. -/
theorem path_circle_progress_range (start_point end_point cur_point : Vec3) (clockwise : Bool)
    (h : ¬ Real.sqrt ((cur_point.n - end_point.n) ^ 2 + (cur_point.e - end_point.e) ^ 2) <
      1e-6) :
    (clockwise = false →
      0 ≤ (path_circle start_point end_point cur_point clockwise).fractional_progress ∧
      (path_circle start_point end_point cur_point clockwise).fractional_progress < 1) ∧
    (clockwise = true →
      0 < (path_circle start_point end_point cur_point clockwise).fractional_progress ∧
      (path_circle start_point end_point cur_point clockwise).fractional_progress ≤ 1) ∧
    (path_circle ⟨0, 0, 0⟩ ⟨10, 0, 0⟩ ⟨0, 0, 0⟩ true).fractional_progress = 1 := by
  have hb := wrapped_progress_bounds
    (atan2 (cur_point.n - end_point.n) (cur_point.e - end_point.e))
    (atan2 (end_point.n - start_point.n) (end_point.e - start_point.e))
    (atan2_gt_neg_pi _ _) (atan2_le_pi _ _) (atan2_gt_neg_pi _ _) (atan2_le_pi _ _)
  have hpi : (0 : ℝ) < π := Real.pi_pos
  refine ⟨?_, ?_, ?_⟩
  · intro hcw
    subst hcw
    simp only [path_circle]
    rw [if_neg h]
    simp only [Bool.false_eq_true, if_false]
    exact hb
  · intro hcw
    subst hcw
    simp only [path_circle]
    rw [if_neg h]
    simp only [if_true]
    exact ⟨by linarith [hb.2], by linarith [hb.1]⟩
  · have h100 : Real.sqrt (100 : ℝ) = 10 := by
      rw [show (100 : ℝ) = 10 ^ 2 by norm_num]
      exact Real.sqrt_sq (by norm_num)
    have hneg : -(π / 2) < 0 := by linarith
    have hnpos : ¬ π / 2 < 0 := not_lt.mpr (by linarith)
    have hval : (-(π / 2) + 2 * π - π / 2 + π) / (2 * π) = 1 := by
      rw [div_eq_one_iff_eq (mul_ne_zero two_ne_zero Real.pi_ne_zero)]
      ring
    simp only [path_circle]
    norm_num [h100, atan2_pos_y, atan2_neg_y, hneg, hnpos, hval]

/-- Witness for C10: counter-clockwise progress at the concrete scenario input
lies in [0,1). -/
theorem path_circle_progress_range_witness :
    0 ≤ (path_circle ⟨0, 0, 0⟩ ⟨10, 0, 0⟩ ⟨20, 0, 0⟩ false).fractional_progress ∧
    (path_circle ⟨0, 0, 0⟩ ⟨10, 0, 0⟩ ⟨20, 0, 0⟩ false).fractional_progress < 1 := by
  have h : ¬ Real.sqrt ((((⟨20, 0, 0⟩ : Vec3).n - (⟨10, 0, 0⟩ : Vec3).n) : ℝ) ^ 2 +
      (((⟨20, 0, 0⟩ : Vec3).e - (⟨10, 0, 0⟩ : Vec3).e) : ℝ) ^ 2) < 1e-6 := by
    show ¬ Real.sqrt ((((20 : ℝ)) - 10) ^ 2 + (((0 : ℝ)) - 0) ^ 2) < 1e-6
    rw [show (((20 : ℝ)) - 10) ^ 2 + (((0 : ℝ)) - 0) ^ 2 = 10 ^ 2 by norm_num,
      Real.sqrt_sq (by norm_num : (0 : ℝ) ≤ 10)]
    norm_num
  exact (path_circle_progress_range ⟨0, 0, 0⟩ ⟨10, 0, 0⟩ ⟨20, 0, 0⟩ false h).1 rfl

lemma path_progress_flyvector (start_point end_point cur_point : Vec3) :
    path_progress start_point end_point cur_point PATHDESIRED_MODE_FLYVECTOR =
      path_vector start_point end_point cur_point true := by
  simp [path_progress]

lemma path_progress_drivevector (start_point end_point cur_point : Vec3) :
    path_progress start_point end_point cur_point PATHDESIRED_MODE_DRIVEVECTOR =
      path_vector start_point end_point cur_point false := by
  norm_num [path_progress, PATHDESIRED_MODE_DRIVEVECTOR, PATHDESIRED_MODE_FLYVECTOR]

lemma path_progress_flycircleright (start_point end_point cur_point : Vec3) :
    path_progress start_point end_point cur_point PATHDESIRED_MODE_FLYCIRCLERIGHT =
      path_circle start_point end_point cur_point true := by
  norm_num [path_progress, PATHDESIRED_MODE_FLYCIRCLERIGHT, PATHDESIRED_MODE_FLYVECTOR,
    PATHDESIRED_MODE_DRIVEVECTOR]

lemma path_progress_drivecircleright (start_point end_point cur_point : Vec3) :
    path_progress start_point end_point cur_point PATHDESIRED_MODE_DRIVECIRCLERIGHT =
      path_circle start_point end_point cur_point true := by
  norm_num [path_progress, PATHDESIRED_MODE_DRIVECIRCLERIGHT, PATHDESIRED_MODE_FLYVECTOR,
    PATHDESIRED_MODE_DRIVEVECTOR, PATHDESIRED_MODE_FLYCIRCLERIGHT]

lemma path_progress_flycircleleft (start_point end_point cur_point : Vec3) :
    path_progress start_point end_point cur_point PATHDESIRED_MODE_FLYCIRCLELEFT =
      path_circle start_point end_point cur_point false := by
  norm_num [path_progress, PATHDESIRED_MODE_FLYCIRCLELEFT, PATHDESIRED_MODE_FLYVECTOR,
    PATHDESIRED_MODE_DRIVEVECTOR, PATHDESIRED_MODE_FLYCIRCLERIGHT,
    PATHDESIRED_MODE_DRIVECIRCLERIGHT]

lemma path_progress_drivecircleleft (start_point end_point cur_point : Vec3) :
    path_progress start_point end_point cur_point PATHDESIRED_MODE_DRIVECIRCLELEFT =
      path_circle start_point end_point cur_point false := by
  norm_num [path_progress, PATHDESIRED_MODE_DRIVECIRCLELEFT, PATHDESIRED_MODE_FLYVECTOR,
    PATHDESIRED_MODE_DRIVEVECTOR, PATHDESIRED_MODE_FLYCIRCLERIGHT,
    PATHDESIRED_MODE_DRIVECIRCLERIGHT, PATHDESIRED_MODE_FLYCIRCLELEFT]

lemma path_progress_flyendpoint (start_point end_point cur_point : Vec3) :
    path_progress start_point end_point cur_point PATHDESIRED_MODE_FLYENDPOINT =
      path_endpoint start_point end_point cur_point true := by
  norm_num [path_progress, PATHDESIRED_MODE_FLYENDPOINT, PATHDESIRED_MODE_FLYVECTOR,
    PATHDESIRED_MODE_DRIVEVECTOR, PATHDESIRED_MODE_FLYCIRCLERIGHT,
    PATHDESIRED_MODE_DRIVECIRCLERIGHT, PATHDESIRED_MODE_FLYCIRCLELEFT,
    PATHDESIRED_MODE_DRIVECIRCLELEFT]

lemma path_progress_driveendpoint (start_point end_point cur_point : Vec3) :
    path_progress start_point end_point cur_point PATHDESIRED_MODE_DRIVEENDPOINT =
      path_endpoint start_point end_point cur_point false := by
  norm_num [path_progress, PATHDESIRED_MODE_DRIVEENDPOINT, PATHDESIRED_MODE_FLYVECTOR,
    PATHDESIRED_MODE_DRIVEVECTOR, PATHDESIRED_MODE_FLYCIRCLERIGHT,
    PATHDESIRED_MODE_DRIVECIRCLERIGHT, PATHDESIRED_MODE_FLYCIRCLELEFT,
    PATHDESIRED_MODE_DRIVECIRCLELEFT, PATHDESIRED_MODE_FLYENDPOINT]

lemma path_circle_ignores_down (start_point end_point cur_point : Vec3) (clockwise : Bool)
    (sd ed cd : ℝ) :
    path_circle ⟨start_point.n, start_point.e, sd⟩ ⟨end_point.n, end_point.e, ed⟩
      ⟨cur_point.n, cur_point.e, cd⟩ clockwise =
      path_circle start_point end_point cur_point clockwise := by
  simp only [path_circle]

/-- C6 counterexample: in the fly-circle-left mode, a 7-unit change of the
current position's vertical coordinate leaves the whole output unchanged, and
the reported error is 0 despite the vertical offset -- so the vertical axis
does not participate in the distance and progress computation of this fly
mode, contrary to the claim. -/
theorem flycircle_vertical_counterexample :
    path_progress ⟨0, 0, 0⟩ ⟨10, 0, 0⟩ ⟨20, 0, 7⟩ PATHDESIRED_MODE_FLYCIRCLELEFT =
      path_progress ⟨0, 0, 0⟩ ⟨10, 0, 0⟩ ⟨20, 0, 0⟩ PATHDESIRED_MODE_FLYCIRCLELEFT ∧
    (path_progress ⟨0, 0, 0⟩ ⟨10, 0, 0⟩ ⟨20, 0, 7⟩ PATHDESIRED_MODE_FLYCIRCLELEFT).error =
      0 := by
  have h100 : Real.sqrt (100 : ℝ) = 10 := by
    rw [show (100 : ℝ) = 10 ^ 2 by norm_num]
    exact Real.sqrt_sq (by norm_num)
  constructor
  · rw [path_progress_flycircleleft, path_progress_flycircleleft]
    exact path_circle_ignores_down ⟨0, 0, 0⟩ ⟨10, 0, 0⟩ ⟨20, 0, 0⟩ false 0 0 7
  · rw [path_progress_flycircleleft]
    simp only [path_circle]
    norm_num [h100]

/-- C6 amended: the fly-vector and fly-endpoint modes include the vertical
axis (they run their solver with the 3D flag set) while drive-vector and
drive-endpoint run with it cleared, zeroing the vertical components of the
path and diff vectors used for distance and progress -- witnessed by the
endpoint error formulas below; the circle modes, fly and drive alike, use only
the horizontal coordinates of every input: the fly and drive circle modes
coincide, and their output is invariant under any change of the three vertical
coordinates. -/
theorem path_progress_vertical_axis_usage (start_point end_point cur_point : Vec3) :
    path_progress start_point end_point cur_point PATHDESIRED_MODE_FLYVECTOR =
      path_vector start_point end_point cur_point true ∧
    path_progress start_point end_point cur_point PATHDESIRED_MODE_FLYENDPOINT =
      path_endpoint start_point end_point cur_point true ∧
    path_progress start_point end_point cur_point PATHDESIRED_MODE_DRIVEVECTOR =
      path_vector start_point end_point cur_point false ∧
    path_progress start_point end_point cur_point PATHDESIRED_MODE_DRIVEENDPOINT =
      path_endpoint start_point end_point cur_point false ∧
    (path_progress start_point end_point cur_point PATHDESIRED_MODE_FLYENDPOINT).error =
      (if dist3 ⟨end_point.n - cur_point.n, end_point.e - cur_point.e,
          end_point.d - cur_point.d⟩ < 1e-6 then 0
       else dist3 ⟨end_point.n - cur_point.n, end_point.e - cur_point.e,
          end_point.d - cur_point.d⟩) ∧
    (path_progress start_point end_point cur_point PATHDESIRED_MODE_DRIVEENDPOINT).error =
      (if dist3 ⟨end_point.n - cur_point.n, end_point.e - cur_point.e, 0⟩ < 1e-6 then 0
       else dist3 ⟨end_point.n - cur_point.n, end_point.e - cur_point.e, 0⟩) ∧
    path_progress start_point end_point cur_point PATHDESIRED_MODE_FLYCIRCLELEFT =
      path_progress start_point end_point cur_point PATHDESIRED_MODE_DRIVECIRCLELEFT ∧
    path_progress start_point end_point cur_point PATHDESIRED_MODE_FLYCIRCLERIGHT =
      path_progress start_point end_point cur_point PATHDESIRED_MODE_DRIVECIRCLERIGHT ∧
    (∀ sd ed cd : ℝ,
      path_progress ⟨start_point.n, start_point.e, sd⟩ ⟨end_point.n, end_point.e, ed⟩
          ⟨cur_point.n, cur_point.e, cd⟩ PATHDESIRED_MODE_FLYCIRCLELEFT =
        path_progress start_point end_point cur_point PATHDESIRED_MODE_FLYCIRCLELEFT) ∧
    (∀ sd ed cd : ℝ,
      path_progress ⟨start_point.n, start_point.e, sd⟩ ⟨end_point.n, end_point.e, ed⟩
          ⟨cur_point.n, cur_point.e, cd⟩ PATHDESIRED_MODE_FLYCIRCLERIGHT =
        path_progress start_point end_point cur_point PATHDESIRED_MODE_FLYCIRCLERIGHT) := by
  refine ⟨path_progress_flyvector _ _ _, path_progress_flyendpoint _ _ _,
    path_progress_drivevector _ _ _, path_progress_driveendpoint _ _ _, ?_, ?_, ?_, ?_, ?_, ?_⟩
  · rw [path_progress_flyendpoint]
    simp [path_endpoint, dist3, apply_ite PathStatus.error]
  · rw [path_progress_driveendpoint]
    simp [path_endpoint, dist3, apply_ite PathStatus.error]
  · rw [path_progress_flycircleleft, path_progress_drivecircleleft]
  · rw [path_progress_flycircleright, path_progress_drivecircleright]
  · intro sd ed cd
    rw [path_progress_flycircleleft, path_progress_flycircleleft]
    exact path_circle_ignores_down start_point end_point cur_point false sd ed cd
  · intro sd ed cd
    rw [path_progress_flycircleright, path_progress_flycircleright]
    exact path_circle_ignores_down start_point end_point cur_point true sd ed cd

end Paths
